import Mathlib

/-!
Formal model of the cobra-daemon service-lifecycle library.

The Go sources (daemon.go, windows_task.go, openbsd_daemon.go) are embedded
shallowly: pure string manipulation (template expansion, output parsing) is
translated to executable Lean functions over `String`/`List Char`; external
process invocations and filesystem calls are modelled by passing their
results in explicitly as environment records, and the sequence of performed
side effects is returned as an explicit trace list where a claim needs it.
Go byte-level string operations are modelled on `List Char`, which agrees
with the Go code on ASCII data (all the fixed strings involved are ASCII).
-/

/-- Split a character list at every character satisfying `p`, keeping empty
pieces; models Go `strings.Split` (single-character separator) and, after
dropping empty pieces, `strings.Fields`. -/
def splitWhen (p : Char → Bool) : List Char → List (List Char)
  | [] => [[]]
  | c :: rest =>
    if p c then [] :: splitWhen p rest
    else
      match splitWhen p rest with
      | [] => [[c]]
      | h :: t => (c :: h) :: t

/-- Go `strings.Split(s, sep)` for a one-character separator. -/
def goSplit (s : String) (sep : Char) : List String :=
  (splitWhen (fun c => c = sep) s.data).map (fun l => ⟨l⟩)

/-- Go `strings.Fields`: whitespace-separated fields, empty pieces dropped. -/
def goFields (s : String) : List String :=
  ((splitWhen Char.isWhitespace s.data).filter (fun l => !l.isEmpty)).map (fun l => ⟨l⟩)

/-- Trim leading and trailing whitespace from a character list. -/
def trimChars (l : List Char) : List Char :=
  ((l.dropWhile Char.isWhitespace).reverse.dropWhile Char.isWhitespace).reverse

/-- Go `strings.TrimSpace`. -/
def goTrim (s : String) : String := ⟨trimChars s.data⟩

/-- Go `strings.Join(l, " ")`. -/
def joinSpace (l : List String) : String := String.intercalate " " l

/-- The file-name component after the final slash; models the second result
of Go `filepath.Split`. -/
def baseName (p : String) : String :=
  ⟨(splitWhen (fun c => c = '/') p.data).getLastD []⟩

/-- Decimal digits to a number, `none` on any non-digit. -/
def digitsToNat (l : List Char) : Option Nat :=
  if l.all Char.isDigit then some (l.foldl (fun n c => n * 10 + (c.toNat - 48)) 0)
  else none

/-- Go `strconv.Atoi`: optional sign followed by at least one decimal digit
(the Go overflow check is immaterial here and not modelled). -/
def goAtoi (s : String) : Option Int :=
  match s.data with
  | [] => none
  | '+' :: r => if r = [] then none else (digitsToNat r).map Int.ofNat
  | '-' :: r => if r = [] then none else (digitsToNat r).map (fun n => -(Int.ofNat n))
  | l => (digitsToNat l).map Int.ofNat

/-- Go `os` package: `isShellSpecialVar`. -/
def isShellSpecialVar (c : Char) : Bool :=
  c = '*' || c = '#' || c = '$' || c = '@' || c = '!' || c = '?' || c = '-' ||
    ('0' ≤ c && c ≤ '9')

/-- Go `os` package: `isAlphaNum`. -/
def isAlphaNum (c : Char) : Bool :=
  c = '_' || ('0' ≤ c && c ≤ '9') || ('a' ≤ c && c ≤ 'z') || ('A' ≤ c && c ≤ 'Z')

/-- Scan inside a `$`-brace group for the closing brace; models the brace
branch of Go `os.getShellName` (the special-variable shortcut in the Go code
returns the same result as the general scan, so only the scan is modelled).
Returns the name and the number of characters consumed after the `$`. -/
def scanBraceName (acc : List Char) : List Char → List Char × Nat
  | [] => ([], 1)
  | c :: rest =>
    if c = '}' then
      if acc = [] then ([], 2) else (acc.reverse, acc.length + 2)
    else scanBraceName (c :: acc) rest

/-- Go `os.getShellName`, applied to the text following a `$`. -/
def getShellName (l : List Char) : List Char × Nat :=
  match l with
  | [] => ([], 0)
  | c :: rest =>
    if c = '{' then scanBraceName [] rest
    else if isShellSpecialVar c then ([c], 1)
    else
      let name := (c :: rest).takeWhile isAlphaNum
      (name, name.length)

/-- Go `os.Expand` on the character list of the template. -/
def expandChars (f : String → String) : List Char → List Char
  | [] => []
  | c :: rest =>
    if c = '$' then
      if rest = [] then ['$']
      else
        let p := getShellName rest
        if p.1 = [] then
          if p.2 > 0 then expandChars f (rest.drop p.2)
          else '$' :: expandChars f rest
        else (f ⟨p.1⟩).data ++ expandChars f (rest.drop p.2)
    else c :: expandChars f rest
termination_by l => l.length
decreasing_by
  all_goals simp [List.length_drop]
  all_goals omega

/-- Go `os.Expand`. -/
def osExpand (template : String) (mapping : String → String) : String :=
  ⟨expandChars mapping template.data⟩

/-- Resolved OS identity; models the fields of Go `os/user.User` that the
program reads. -/
structure GoUser where
  Username : String
  Uid : String
  Gid : String
  HomeDir : String

/-- windows_task.go: the `WindowsTask` backend struct. -/
structure WindowsTask where
  Name : String
  Username : String
  Uid : String
  Executable : String
  Args : String
  Dir : String
  LogFile : String

/-- daemon.go: the `Daemontools` backend struct. -/
structure Daemontools where
  Name : String
  Username : String
  Uid : String
  Gid : String
  Executable : String
  Args : String
  Dir : String
  LogFile : String
  service : String
  serviceBin : String

/-- openbsd_daemon.go: the `RCDaemon` backend struct. -/
structure RCDaemon where
  Name : String
  Username : String
  Uid : String
  Executable : String
  Args : String
  Dir : String
  LogFile : String
  serviceBin : String

/-- windows_task.go Install, lines 97-111: the placeholder mapping closure
passed to `os.Expand` for the task XML template. -/
def WindowsTask.xmlExpand (t : WindowsTask) (key : String) : String :=
  if key = "TASK_USER" then t.Username
  else if key = "TASK_UID" then t.Uid
  else if key = "TASK_BIN" then t.Executable
  else if key = "TASK_ARGS" then t.Args
  else if key = "TASK_DIR" then t.Dir
  else "UNEXPANDED_XML_PARAM_" ++ key

/-- daemon.go lines 191-210: the placeholder mapping of
`Daemontools.templateData`. -/
def Daemontools.expandKey (d : Daemontools) (key : String) : String :=
  if key = "TASK_NAME" then d.Name
  else if key = "TASK_USER" then d.Username
  else if key = "TASK_UID" then d.Uid
  else if key = "TASK_BIN" then d.serviceBin
  else if key = "TASK_ARGS" then d.Args
  else if key = "TASK_DIR" then d.Dir
  else "$\x7b" ++ key ++ "\x7d"

/-- daemon.go: `Daemontools.templateData`. -/
def Daemontools.templateData (d : Daemontools) (template : String) : String :=
  osExpand template d.expandKey

/-- openbsd_daemon.go Install, lines 72-86: the placeholder mapping closure
passed to `os.Expand` for the rc-script template. -/
def RCDaemon.expandKey (d : RCDaemon) (key : String) : String :=
  if key = "TASK_USER" then d.Username
  else if key = "TASK_UID" then d.Uid
  else if key = "TASK_BIN" then d.serviceBin
  else if key = "TASK_ARGS" then d.Args
  else if key = "TASK_DIR" then d.Dir
  else "$\x7b" ++ key ++ "\x7d"

/-- Result of one external command run: the data the Go code reads back from
`exec.Cmd` (`ProcessState.ExitCode()`, captured stdout/stderr, and the error
returned by `Run`, carried as its message). -/
structure RunResult where
  exitCode : Int
  stdout : String
  stderr : String
  runError : Option String

/-- Return value of `WindowsTask.taskScheduler`: exit code, stdout text, and
error, mirroring the Go `(int, string, error)` triple. -/
structure SchedOut where
  code : Int
  out : String
  err : Option String
deriving DecidableEq

/-- windows_task.go lines 72-93: `WindowsTask.taskScheduler`, as a function
of the observed run result of the `schtasks.exe` invocation. -/
def WindowsTask.taskScheduler (r : RunResult) : SchedOut :=
  let estr := goTrim r.stderr
  let ostr := goTrim r.stdout
  match r.runError with
  | none => ⟨r.exitCode, ostr, none⟩
  | some e => if estr ≠ "" then ⟨r.exitCode, "", some estr⟩ else ⟨r.exitCode, "", some e⟩

/-- The comma-split fields of the single output line, as computed by
windows_task.go lines 176-180 (empty when the line count is not one). -/
def winFields (stdout : String) : List String :=
  if (goSplit stdout '\n').length = 1 then goSplit ((goSplit stdout '\n')[0]!) ',' else []

/-- windows_task.go lines 176-191: the CSV-parsing tail of
`WindowsTask.Query`, applied to the (already trimmed) stdout returned by
`taskScheduler`. -/
def windowsQueryParse (name stdout : String) : Except String Bool :=
  if (goSplit stdout '\n').length ≠ 1 ∨ (winFields stdout).length ≠ 3 then
    .error ("unexpected output: " ++ stdout)
  else if (winFields stdout)[0]! ≠ "\"\\" ++ name ++ "\"" then
    .error ("unexpected task name: " ++ (winFields stdout)[0]!)
  else if (winFields stdout)[2]! = "\"Running\"" then .ok true
  else .ok false

/-- windows_task.go lines 170-192: `WindowsTask.Query`, as a function of the
observed run result of the `QUERY /FO csv /NH` invocation. -/
def WindowsTask.Query (t : WindowsTask) (r : RunResult) : Except String Bool :=
  let s := WindowsTask.taskScheduler r
  match s.err with
  | some e => .error e
  | none => windowsQueryParse t.Name s.out

/-- The run state the specification describes for the Windows `Query`
parser, written from the spec's words: exactly one line of exactly three
comma-separated fields whose first field is the quoted backslash-prefixed
task name, else no boolean; running exactly when the third field is the
literal `"Running"`. -/
def winQuerySpec (name out : String) : Option Bool :=
  if (goSplit out '\n').length = 1 ∧ (winFields out).length = 3 ∧
      (winFields out)[0]! = "\"\\" ++ name ++ "\"" then
    some (decide ((winFields out)[2]! = "\"Running\""))
  else none

/-- Forget the error payload of an `Except` result. -/
def okValue {α : Type} : Except String α → Option α
  | .ok a => some a
  | .error _ => none

/-- daemon.go lines 361-379: the parsing tail of `Daemontools.svstat`,
applied to the stdout captured from the `svstat` utility. -/
def svstatParse (serviceDir stdout : String) : Except String Bool :=
  let status := goTrim stdout
  let fields := goFields status
  if fields.length < 2 then .error ("unexpected svstat output: " ++ status)
  else if fields[0]! ≠ serviceDir ++ ":" then
    .error ("unexpected svstat dir output: " ++ fields[0]!)
  else if fields[1]! = "up" then .ok true
  else .ok false

/-- daemon.go: `Daemontools.svstat` as a function of the result of
`exec.Command("svstat", dir).Output()` (error or captured stdout). -/
def Daemontools.svstat (serviceDir : String) (outRes : Except String String) :
    Except String Bool :=
  match outRes with
  | .error e => .error e
  | .ok stdout => svstatParse serviceDir stdout

/-- The run state the specification describes for the supervised-tree status
probe, written from the spec's words: whitespace-separated fields of the
trimmed output, first field must be the queried directory followed by a
colon, running exactly when the second field is `up`; on prefix mismatch or
fewer than the two contracted fields, no boolean. -/
def svstatSpec (serviceDir out : String) : Option Bool :=
  let fields := goFields (goTrim out)
  if 2 ≤ fields.length ∧ fields[0]! = serviceDir ++ ":" then
    some (decide (fields[1]! = "up"))
  else none

/-- The error taxonomy of Go `exec.Cmd.Run`: a non-zero exit is reported as
`*exec.ExitError`; any other failure (e.g. the utility could not be
started) is some other error value. -/
inductive GoCmdError
  | exitError
  | otherError (msg : String)
deriving DecidableEq

/-- Observed result of `exec.Command("rcctl", "check", name).Run()` plus the
exit code subsequently read from `cmd.ProcessState`. -/
structure RcctlRun where
  exitCode : Int
  runError : Option GoCmdError

/-- openbsd_daemon.go lines 163-174: `RCDaemon.Query` as a function of the
observed run result of the `check` verb. -/
def RCDaemon.Query (r : RcctlRun) : Except String Bool :=
  match r.runError with
  | some (.otherError msg) => .error msg
  | _ => .ok (decide (r.exitCode = 0))

/-- Environment for construction: the results of the OS queries performed by
`NewDaemon` and `NewWindowsTask` (user resolution, directory test, platform
identifier, and the `MkdirAll` of the Windows log directory). -/
structure SysEnv where
  currentUser : Except String GoUser
  lookupUser : String → Except String GoUser
  isDir : String → Bool
  goos : String
  mkdirAllErr : Option String

/-- daemon.go lines 44-53: resolve the acting user (`user.Current`, then
`user.Lookup` when a username was given). -/
def resolveUser (env : SysEnv) (username : String) : Except String GoUser :=
  match env.currentUser with
  | .error e => .error e
  | .ok cur => if username = "" then .ok cur else env.lookupUser username

/-- windows_task.go lines 50-70: `NewWindowsTask` (the `filepath.Join` calls
are modelled as separator concatenation). -/
def NewWindowsTask (env : SysEnv) (taskName : String) (taskUser : GoUser)
    (taskDir taskCommand : String) (taskArgs : List String) :
    Except String WindowsTask :=
  let logDir := taskUser.HomeDir ++ "/logs"
  match env.mkdirAllErr with
  | some e => .error e
  | none =>
    let logFile := logDir ++ "/" ++ (taskName ++ "-task.log")
    .ok { Name := taskName
          Username := taskUser.Username
          Uid := taskUser.Uid
          Executable := taskCommand
          Args := joinSpace (taskArgs ++ ["-L", logFile])
          Dir := taskDir
          LogFile := logFile }

/-- daemon.go lines 171-189: `NewDaemontools` (never fails; the unset
`LogFile` field keeps its Go zero value). -/
def NewDaemontools (name : String) (serviceUser : GoUser) (runDir command : String)
    (args : List String) : Daemontools :=
  { Name := name
    Username := serviceUser.Username
    Uid := serviceUser.Uid
    Gid := serviceUser.Gid
    Executable := command
    Args := joinSpace (args ++ ["-L-"])
    Dir := runDir
    LogFile := ""
    service := "/etc/service/" ++ name
    serviceBin := "/usr/local/bin/" ++ baseName command }

/-- openbsd_daemon.go lines 51-68: `NewRCDaemon` (never fails). -/
def NewRCDaemon (name : String) (daemonUser : GoUser) (runDir command : String)
    (args : List String) : RCDaemon :=
  { Name := name
    Username := daemonUser.Username
    Uid := daemonUser.Uid
    Executable := command
    Args := joinSpace (args ++ ["-L", "/var/log/" ++ name])
    Dir := runDir
    LogFile := "/var/log/" ++ name
    serviceBin := "/usr/local/bin/" ++ baseName command }

/-- The closed set of backend variants behind the `CobraDaemon` interface of
daemon.go. -/
inductive CobraDaemon
  | windowsTask (t : WindowsTask)
  | rcDaemon (r : RCDaemon)
  | daemontools (d : Daemontools)

/-- daemon.go lines 42-85: `NewDaemon`, as a function of the observed OS
environment. -/
def NewDaemon (env : SysEnv) (name username dir command : String)
    (args : List String) : Except String CobraDaemon :=
  match resolveUser env username with
  | .error e => .error e
  | .ok taskUser =>
    let taskDir := if dir = "" then taskUser.HomeDir else dir
    if !env.isDir taskDir then .error ("not directory: " ++ taskDir)
    else if env.goos = "windows" then
      match NewWindowsTask env name taskUser taskDir command args with
      | .error e => .error e
      | .ok t => .ok (.windowsTask t)
    else if env.goos = "openbsd" then
      .ok (.rcDaemon (NewRCDaemon name taskUser taskDir command args))
    else if env.goos = "linux" then
      .ok (.daemontools (NewDaemontools name taskUser taskDir command args))
    else .error ("unsuported os: " ++ env.goos)

/-- An idealized filesystem for the sentinel-file helpers: the set of
existing regular files, as a list of paths. -/
def FsState := List String

/-- `common.IsFile`: the path is an existing regular file. -/
def fsHas (fs : FsState) (p : String) : Bool := fs.contains p

/-- `os.Remove` of a regular file. -/
def fsRemove (fs : FsState) (p : String) : FsState := fs.filter (fun q => q ≠ p)

/-- `os.WriteFile` creating a file. -/
def fsWrite (fs : FsState) (p : String) : FsState := if fs.contains p then fs else p :: fs

/-- daemon.go lines 212-221: `Daemontools.enable`, on the idealized
filesystem (removing an existing file succeeds there, as `os.Remove` does
when permissions allow; the Go code surfaces the I/O error otherwise). -/
def Daemontools.enable (d : Daemontools) (fs : FsState) : FsState :=
  let downFile := d.service ++ "/down"
  if fsHas fs downFile then fsRemove fs downFile else fs

/-- daemon.go lines 223-232: `Daemontools.disable`, on the idealized
filesystem. -/
def Daemontools.disable (d : Daemontools) (fs : FsState) : FsState :=
  let downFile := d.service ++ "/down"
  if !fsHas fs downFile then fsWrite fs downFile else fs

/-- Filesystem / process side effects attempted by the Unix backends. -/
inductive DtOp
  | mkdirAll (p : String)
  | chown (p : String) (gid : Int)
  | writeFile (p : String) (data : String)
  | copyFile (src dst : String)
  | mkdir (p : String)
  | symlink (target link : String)
  | svstatQ (dir : String)
  | svcDown (dir : String)
  | removeAll (p : String)
deriving DecidableEq

/-- Environment for `Daemontools.Install`: the results of its filesystem
calls, in program order. -/
structure DtInstallEnv where
  mkdirSvcdErr : Option String
  mkdirLogErr : Option String
  chownErr : Option String
  writeRunErr : Option String
  writeLogRunErr : Option String
  openExeErr : Option String
  openBinErr : Option String
  copyErr : Option String
  logdirExists : Bool
  mkdirLogdirErr : Option String
  writeDownErr : Option String
  symlinkErr : Option String

/-- daemon.go lines 234-291: `Daemontools.Install`, returning the result and
the trace of attempted side effects (the executable copy is recorded as one
`copyFile` attempt covering the open/open/copy triple). -/
def Daemontools.Install (d : Daemontools) (runT logT : String)
    (env : DtInstallEnv) : Except String Unit × List DtOp :=
  match goAtoi d.Gid with
  | none => (.error ("invalid gid: " ++ d.Gid), [])
  | some gid =>
    let dir := "/var/svc.d/" ++ d.Name
    let t0 : List DtOp := [.mkdirAll "/var/svc.d"]
    match env.mkdirSvcdErr with
    | some e => (.error e, t0)
    | none =>
      let t1 := t0 ++ [.mkdirAll (dir ++ "/log")]
      match env.mkdirLogErr with
      | some e => (.error e, t1)
      | none =>
        let t2 := t1 ++ [.chown dir gid]
        match env.chownErr with
        | some e => (.error e, t2)
        | none =>
          let t3 := t2 ++ [.writeFile (dir ++ "/run") (d.templateData runT)]
          match env.writeRunErr with
          | some e => (.error e, t3)
          | none =>
            let t4 := t3 ++ [.writeFile (dir ++ "/log/run") (d.templateData logT)]
            match env.writeLogRunErr with
            | some e => (.error e, t4)
            | none =>
              match env.openExeErr with
              | some e => (.error e, t4)
              | none =>
                match env.openBinErr with
                | some e => (.error e, t4)
                | none =>
                  let t5 := t4 ++ [.copyFile d.Executable d.serviceBin]
                  match env.copyErr with
                  | some e => (.error e, t5)
                  | none =>
                    let logdir := "/var/log/" ++ d.Name
                    if !env.logdirExists then
                      match env.mkdirLogdirErr with
                      | some e => (.error e, t5 ++ [.mkdir logdir])
                      | none =>
                        let t6 := t5 ++ [.mkdir logdir, .writeFile (dir ++ "/down") ""]
                        match env.writeDownErr with
                        | some e => (.error e, t6)
                        | none =>
                          match env.symlinkErr with
                          | some e => (.error e, t6 ++ [.symlink dir d.service])
                          | none => (.ok (), t6 ++ [.symlink dir d.service])
                    else
                      let t6 := t5 ++ [.writeFile (dir ++ "/down") ""]
                      match env.writeDownErr with
                      | some e => (.error e, t6)
                      | none =>
                        match env.symlinkErr with
                        | some e => (.error e, t6 ++ [.symlink dir d.service])
                        | none => (.ok (), t6 ++ [.symlink dir d.service])

/-- Environment for `Daemontools.Delete`: the `svstat` outputs for the main
and log supervision directories and the results of the stop / removal
calls, in program order. -/
structure DtDeleteEnv where
  mainOut : Except String String
  stopErr : Option String
  logOut : Except String String
  logDownErr : Option String
  removeServiceErr : Option String
  removeSvcdErr : Option String

/-- daemon.go lines 337-343: `Daemontools.Stop` as a function of the result
of `svc -d` on the supervision directory. -/
def Daemontools.Stop (_d : Daemontools) (svcDownErr : Option String) :
    Except String Unit :=
  match svcDownErr with
  | some e => .error e
  | none => .ok ()

/-- daemon.go lines 293-323: `Daemontools.Delete`, returning the result and
the trace of attempted side effects. -/
def Daemontools.Delete (d : Daemontools) (env : DtDeleteEnv) :
    Except String Unit × List DtOp :=
  let t0 : List DtOp := [.svstatQ d.service]
  match Daemontools.svstat d.service env.mainOut with
  | .error e => (.error e, t0)
  | .ok running =>
    let afterStop : Except String Unit × List DtOp :=
      if running then
        match d.Stop env.stopErr with
        | .error e => (.error e, t0 ++ [.svcDown d.service])
        | .ok _ => (.ok (), t0 ++ [.svcDown d.service])
      else (.ok (), t0)
    match afterStop with
    | (.error e, t) => (.error e, t)
    | (.ok _, t) =>
      let t1 := t ++ [.svstatQ (d.service ++ "/log")]
      match Daemontools.svstat (d.service ++ "/log") env.logOut with
      | .error e => (.error e, t1)
      | .ok logRunning =>
        let afterLog : Except String Unit × List DtOp :=
          if logRunning then
            match env.logDownErr with
            | some e => (.error e, t1 ++ [.svcDown (d.service ++ "/log")])
            | none => (.ok (), t1 ++ [.svcDown (d.service ++ "/log")])
          else (.ok (), t1)
        match afterLog with
        | (.error e, t) => (.error e, t)
        | (.ok _, t) =>
          let t2 := t ++ [.removeAll d.service]
          match env.removeServiceErr with
          | some e => (.error e, t2)
          | none =>
            let t3 := t2 ++ [.removeAll ("/var/svc.d/" ++ d.Name)]
            match env.removeSvcdErr with
            | some e => (.error e, t3)
            | none => (.ok (), t3)

/-- Side effects attempted by the Windows backend. -/
inductive WinOp
  | writeFile (p : String) (data : String)
  | schtasksCreate (xml : String)
  | endTask
  | deleteTask
  | removeAll (p : String)
deriving DecidableEq

/-- Environment for `WindowsTask.Install`: the result of `os.MkdirTemp` and
of the subsequent write and `CREATE` invocation. -/
structure WinInstallEnv where
  mkdirTempRes : Except String String
  writeErr : Option String
  createErr : Option String

/-- windows_task.go lines 95-132: `WindowsTask.Install`, returning the
result and the trace of attempted side effects; the deferred
`os.RemoveAll(tempDir)` appears at the end of every trace that follows a
successful `MkdirTemp`. -/
def WindowsTask.Install (t : WindowsTask) (xmlTemplate : String)
    (env : WinInstallEnv) : Except String Unit × List WinOp :=
  let xmlData := osExpand xmlTemplate t.xmlExpand
  match env.mkdirTempRes with
  | .error e => (.error e, [])
  | .ok tempDir =>
    let xmlFile := tempDir ++ "/task.xml"
    match env.writeErr with
    | some e => (.error e, [.writeFile xmlFile xmlData, .removeAll tempDir])
    | none =>
      match env.createErr with
      | some e =>
        (.error e, [.writeFile xmlFile xmlData, .schtasksCreate xmlFile, .removeAll tempDir])
      | none =>
        (.ok (), [.writeFile xmlFile xmlData, .schtasksCreate xmlFile, .removeAll tempDir])

/-- Environment for `WindowsTask.Delete`: the run results of the `END` and
`DELETE /F` invocations. -/
structure WinDeleteEnv where
  endRun : RunResult
  deleteRun : RunResult

/-- windows_task.go lines 134-144: `WindowsTask.Delete`, returning the
result and the trace of issued `schtasks.exe` verbs. -/
def WindowsTask.Delete (env : WinDeleteEnv) : Except String Unit × List WinOp :=
  let r1 := WindowsTask.taskScheduler env.endRun
  match r1.err with
  | some e => (.error e, [.endTask])
  | none =>
    let r2 := WindowsTask.taskScheduler env.deleteRun
    match r2.err with
    | some e => (.error e, [.endTask, .deleteTask])
    | none => (.ok (), [.endTask, .deleteTask])

/-- Environment for `RCDaemon.Delete`: the results of the `rcctl stop`,
`rcctl disable` and `os.Remove` calls, in program order. -/
structure RcDeleteEnv where
  stopErr : Option String
  disableErr : Option String
  removeErr : Option String

/-- openbsd_daemon.go lines 119-133: `RCDaemon.Delete`. -/
def RCDaemon.Delete (env : RcDeleteEnv) : Except String Unit :=
  match env.stopErr with
  | some e => .error e
  | none =>
    match env.disableErr with
    | some e => .error e
    | none =>
      match env.removeErr with
      | some e => .error e
      | none => .ok ()

theorem drop_len_append {α : Type} (l₁ l₂ : List α) :
    (l₁ ++ l₂).drop l₁.length = l₂ := by
  induction l₁ with
  | nil => simp
  | cons a t ih => simp [ih]

theorem stringEq_of_dataEq {a b : String} (h : a.data = b.data) : a = b := by
  cases a
  cases b
  exact congrArg String.mk h

theorem string_data_ne_nil {s : String} (h : s ≠ "") : s.data ≠ [] := by
  intro hd
  apply h
  apply stringEq_of_dataEq
  simpa using hd

theorem contains_filter_ne (fs : List String) (p : String) :
    (fs.filter (fun q => q ≠ p)).contains p = false := by
  simp [List.contains, List.mem_filter]

/-- C10: the supervised-tree backend's internal enable and disable helpers
are idempotent on the down-sentinel state: enable removes the `down` file
only when present and leaves it absent, disable creates it only when absent
and leaves it present, and running either helper twice produces the same
filesystem state (and success) as running it once. -/
theorem daemontools_enable_disable_idempotent (d : Daemontools) (fs : FsState) :
    fsHas (d.enable fs) (d.service ++ "/down") = false
  ∧ d.enable (d.enable fs) = d.enable fs
  ∧ fsHas (d.disable fs) (d.service ++ "/down") = true
  ∧ d.disable (d.disable fs) = d.disable fs
  ∧ (fsHas fs (d.service ++ "/down") = false → d.enable fs = fs)
  ∧ (fsHas fs (d.service ++ "/down") = true → d.disable fs = fs) := by
  have henA : fsHas (d.enable fs) (d.service ++ "/down") = false := by
    by_cases h : fsHas fs (d.service ++ "/down") = true
    · simp only [Daemontools.enable, h, if_true]
      exact contains_filter_ne fs (d.service ++ "/down")
    · simp only [Daemontools.enable, h, if_false, Bool.false_eq_true]
  have hdisA : fsHas (d.disable fs) (d.service ++ "/down") = true := by
    by_cases h : fsHas fs (d.service ++ "/down") = true
    · simp [Daemontools.disable, h]
    · simp only [Daemontools.disable, h, Bool.not_false, Bool.false_eq_true, if_true]
      simp only [fsHas, List.contains] at h ⊢
      simp only [fsWrite, List.contains, h]
      simp at h
      simp [h]
  refine ⟨henA, ?_, hdisA, ?_, ?_, ?_⟩
  · conv_lhs => rw [Daemontools.enable]
    simp [henA]
  · conv_lhs => rw [Daemontools.disable]
    simp [hdisA]
  · intro h
    simp [Daemontools.enable, h]
  · intro h
    simp [Daemontools.disable, h]

/-- Witness for C10 at a concrete backend and filesystem. -/
theorem daemontools_enable_disable_idempotent_witness :
    fsHas ([("/etc/service/netboot/down" : String)]) "/etc/service/netboot/down" = true
  ∧ Daemontools.disable
      ⟨"netboot", "svc", "1000", "1000", "/usr/local/bin/netbootd", "server -L-",
        "/home/svc", "", "/etc/service/netboot", "/usr/local/bin/netbootd"⟩
      ["/etc/service/netboot/down"]
    = ["/etc/service/netboot/down"] := by
  constructor
  · decide
  · exact (daemontools_enable_disable_idempotent
      ⟨"netboot", "svc", "1000", "1000", "/usr/local/bin/netbootd", "server -L-",
        "/home/svc", "", "/etc/service/netboot", "/usr/local/bin/netbootd"⟩
      ["/etc/service/netboot/down"]).2.2.2.2.2 (by decide)

/-- C3: the rc-script backend's `Query` maps a completed `check` run to
`ok (exit code = 0)` — non-zero exit is the normal "not running" signal,
never an error — and only a failure that is not an exit-status error is
returned as an error. -/
theorem rcdaemon_query_check_exit (r : RcctlRun) :
    ((r.runError = none ∨ r.runError = some .exitError) →
      RCDaemon.Query r = .ok (decide (r.exitCode = 0)))
  ∧ (∀ msg, r.runError = some (.otherError msg) → RCDaemon.Query r = .error msg) := by
  constructor
  · intro h
    rcases h with h | h <;> simp [RCDaemon.Query, h]
  · intro msg h
    simp [RCDaemon.Query, h]

/-- Witness for C3: exit 0 maps to running, exit 1 to not running, and a
spawn failure to an error. -/
theorem rcdaemon_query_check_exit_witness :
    RCDaemon.Query ⟨0, none⟩ = .ok (decide ((0 : Int) = 0))
  ∧ RCDaemon.Query ⟨1, some .exitError⟩ = .ok (decide ((1 : Int) = 0))
  ∧ RCDaemon.Query ⟨-1, some (.otherError "exec: rcctl: not found")⟩ =
      .error "exec: rcctl: not found" := by
  refine ⟨?_, ?_, ?_⟩
  · exact (rcdaemon_query_check_exit ⟨0, none⟩).1 (Or.inl rfl)
  · exact (rcdaemon_query_check_exit ⟨1, some .exitError⟩).1 (Or.inr rfl)
  · exact (rcdaemon_query_check_exit ⟨-1, some (.otherError "exec: rcctl: not found")⟩).2
      "exec: rcctl: not found" rfl

/-- C6: the Windows process invoker returns the exit code plus trimmed
stdout on success; on failure with non-empty trimmed stderr the error
message is exactly that stderr text, and on failure with empty stderr the
underlying run error is returned instead. -/
theorem windows_taskScheduler_errors (r : RunResult) :
    (r.runError = none →
      WindowsTask.taskScheduler r = ⟨r.exitCode, goTrim r.stdout, none⟩)
  ∧ (∀ e, r.runError = some e → goTrim r.stderr ≠ "" →
      WindowsTask.taskScheduler r = ⟨r.exitCode, "", some (goTrim r.stderr)⟩)
  ∧ (∀ e, r.runError = some e → goTrim r.stderr = "" →
      WindowsTask.taskScheduler r = ⟨r.exitCode, "", some e⟩) := by
  refine ⟨?_, ?_, ?_⟩
  · intro h
    simp [WindowsTask.taskScheduler, h]
  · intro e h hne
    simp [WindowsTask.taskScheduler, h, hne]
  · intro e h he
    simp [WindowsTask.taskScheduler, h, he]

/-- Witness for C6 at concrete runs: a success, a failure with stderr text,
and a failure with blank stderr. -/
theorem windows_taskScheduler_errors_witness :
    WindowsTask.taskScheduler ⟨0, " SUCCESS ", "", none⟩ =
      ⟨0, goTrim " SUCCESS ", none⟩
  ∧ goTrim " ERROR: boom " ≠ ""
  ∧ WindowsTask.taskScheduler ⟨1, "", " ERROR: boom ", some "exit status 1"⟩ =
      ⟨1, "", some (goTrim " ERROR: boom ")⟩
  ∧ goTrim "  " = ""
  ∧ WindowsTask.taskScheduler ⟨1, "", "  ", some "exit status 1"⟩ =
      ⟨1, "", some "exit status 1"⟩ := by
  refine ⟨?_, ?_, ?_, ?_, ?_⟩
  · exact (windows_taskScheduler_errors ⟨0, " SUCCESS ", "", none⟩).1 rfl
  · decide
  · exact (windows_taskScheduler_errors ⟨1, "", " ERROR: boom ", some "exit status 1"⟩).2.1
      "exit status 1" rfl (by decide)
  · decide
  · exact (windows_taskScheduler_errors ⟨1, "", "  ", some "exit status 1"⟩).2.2
      "exit status 1" rfl (by decide)

/-- C2: the supervised-tree status probe agrees with the specified parsing
contract on every input — whitespace fields of the trimmed output, first
field must be the queried directory plus a colon, running exactly when the
second field is `up`, and no boolean on prefix mismatch or a field count
below the contract — including the spec's three fixture outputs. -/
theorem svstat_parse_contract :
    (∀ dir out, okValue (svstatParse dir out) = svstatSpec dir out)
  ∧ svstatParse "/etc/service/x" "/etc/service/x: up (pid 123) 5s" = .ok true
  ∧ svstatParse "/etc/service/x" "/etc/service/x: down 0s" = .ok false
  ∧ okValue (svstatParse "/etc/service/x" "/etc/service/y: up 1s") = none := by
  refine ⟨?_, ?_, ?_, ?_⟩
  · intro dir out
    by_cases h1 : (goFields (goTrim out)).length < 2
    · have h2 : ¬ 2 ≤ (goFields (goTrim out)).length := by omega
      simp [svstatParse, svstatSpec, okValue, h1, h2]
    · have h2 : 2 ≤ (goFields (goTrim out)).length := by omega
      by_cases h3 : (goFields (goTrim out))[0]! = dir ++ ":"
      · by_cases h4 : (goFields (goTrim out))[1]! = "up" <;>
          simp [svstatParse, svstatSpec, okValue, h1, h2, h3, h4]
      · simp [svstatParse, svstatSpec, okValue, h1, h2, h3]
  · rfl
  · rfl
  · rfl

/-- C1: the Windows `Query` parser agrees with the specified CSV contract on
every input — exactly one line of exactly three comma-separated fields whose
first field is the quoted backslash-prefixed task name, running exactly when
the third field is the literal `"Running"`, and no boolean otherwise — and
`Query` applies it to the trimmed scheduler output of a completed run; the
spec's fixtures are included. -/
theorem windows_query_parse_contract (t : WindowsTask) (r : RunResult)
    (h : r.runError = none) :
    WindowsTask.Query t r = windowsQueryParse t.Name (goTrim r.stdout)
  ∧ (∀ name out, okValue (windowsQueryParse name out) = winQuerySpec name out)
  ∧ windowsQueryParse "svcname" "\"\\svcname\",\"Ready\",\"Running\"" = .ok true
  ∧ windowsQueryParse "svcname" "\"\\svcname\",\"Ready\",\"Ready\"" = .ok false
  ∧ okValue (windowsQueryParse "svcname" "line one\nline two") = none := by
  refine ⟨?_, ?_, rfl, rfl, rfl⟩
  · simp [WindowsTask.Query, WindowsTask.taskScheduler, h]
  · intro name out
    by_cases h1 : (goSplit out '\n').length = 1
    · by_cases h2 : (winFields out).length = 3
      · by_cases h3 : (winFields out)[0]! = "\"\\" ++ name ++ "\""
        · by_cases h4 : (winFields out)[2]! = "\"Running\"" <;>
            simp [windowsQueryParse, winQuerySpec, okValue, h1, h2, h3, h4]
        · simp [windowsQueryParse, winQuerySpec, okValue, h1, h2, h3]
      · simp [windowsQueryParse, winQuerySpec, okValue, h1, h2]
    · simp [windowsQueryParse, winQuerySpec, okValue, h1]

/-- Witness for C1 at a concrete completed run carrying the spec's fixture
output. -/
theorem windows_query_parse_contract_witness :
    WindowsTask.Query
        ⟨"svcname", "user", "1001", "C:/bin/svc.exe", "server", "C:/home", "C:/home/logs/svcname-task.log"⟩
        ⟨0, "\"\\svcname\",\"Ready\",\"Running\"\r\n", "", none⟩
      = windowsQueryParse "svcname" (goTrim "\"\\svcname\",\"Ready\",\"Running\"\r\n")
  ∧ WindowsTask.Query
        ⟨"svcname", "user", "1001", "C:/bin/svc.exe", "server", "C:/home", "C:/home/logs/svcname-task.log"⟩
        ⟨0, "\"\\svcname\",\"Ready\",\"Running\"\r\n", "", none⟩
      = .ok true := by
  constructor
  · exact (windows_query_parse_contract
      ⟨"svcname", "user", "1001", "C:/bin/svc.exe", "server", "C:/home", "C:/home/logs/svcname-task.log"⟩
      ⟨0, "\"\\svcname\",\"Ready\",\"Running\"\r\n", "", none⟩ rfl).1
  · rfl

/-- C7: `NewDaemon` fails construction whenever the resolved working
directory (the given one, or the resolved user's home when empty) is not an
existing directory, and on an unsupported platform fails with an error that
names the platform. -/
theorem newDaemon_construction_failures (env : SysEnv)
    (name username dir command : String) (args : List String) (u : GoUser)
    (hu : resolveUser env username = .ok u) :
    (env.isDir (if dir = "" then u.HomeDir else dir) = false →
      ∃ e, NewDaemon env name username dir command args = .error e)
  ∧ (env.isDir (if dir = "" then u.HomeDir else dir) = true →
      env.goos ∉ (["windows", "openbsd", "linux"] : List String) →
      NewDaemon env name username dir command args =
        .error ("unsuported os: " ++ env.goos)
      ∧ ∃ a b, "unsuported os: " ++ env.goos = a ++ env.goos ++ b) := by
  constructor
  · intro h
    refine ⟨"not directory: " ++ (if dir = "" then u.HomeDir else dir), ?_⟩
    simp [NewDaemon, hu, h]
  · intro h hm
    simp only [List.mem_cons, List.not_mem_nil, or_false, not_or] at hm
    obtain ⟨h1, h2, h3⟩ := hm
    refine ⟨?_, "unsuported os: ", "", by simp⟩
    simp [NewDaemon, hu, h, h1, h2, h3]

/-- Witness for C7: both failure modes at a concrete environment. -/
theorem newDaemon_construction_failures_witness :
    (∃ e, NewDaemon
        ⟨.ok ⟨"root", "0", "0", "/root"⟩, fun _ => .error "unknown user",
          fun _ => false, "plan9", none⟩
        "netboot" "" "/no/such/dir" "/usr/local/bin/netbootd" ["server"] = .error e)
  ∧ NewDaemon
        ⟨.ok ⟨"root", "0", "0", "/root"⟩, fun _ => .error "unknown user",
          fun _ => true, "plan9", none⟩
        "netboot" "" "/tmp" "/usr/local/bin/netbootd" ["server"] =
      .error ("unsuported os: " ++ "plan9") := by
  constructor
  · exact (newDaemon_construction_failures
      ⟨.ok ⟨"root", "0", "0", "/root"⟩, fun _ => .error "unknown user",
        fun _ => false, "plan9", none⟩
      "netboot" "" "/no/such/dir" "/usr/local/bin/netbootd" ["server"]
      ⟨"root", "0", "0", "/root"⟩ rfl).1 rfl
  · exact ((newDaemon_construction_failures
      ⟨.ok ⟨"root", "0", "0", "/root"⟩, fun _ => .error "unknown user",
        fun _ => true, "plan9", none⟩
      "netboot" "" "/tmp" "/usr/local/bin/netbootd" ["server"]
      ⟨"root", "0", "0", "/root"⟩ rfl).2 rfl (by decide)).1

/-- C8: once the private temporary directory is created, the Windows
`Install` removes it on every return path — the deferred `RemoveAll` is the
final effect of each trace — whatever the write and CREATE results are. -/
theorem windows_install_tempdir_removed (t : WindowsTask) (xmlT : String)
    (env : WinInstallEnv) (d : String) (h : env.mkdirTempRes = .ok d) :
    ((WindowsTask.Install t xmlT env).2).getLast? = some (.removeAll d)
  ∧ WinOp.removeAll d ∈ (WindowsTask.Install t xmlT env).2 := by
  obtain ⟨m, w, c⟩ := env
  simp only at h
  subst h
  cases w <;> cases c <;> simp [WindowsTask.Install]

/-- Witness for C8: the temporary directory is removed last both on a
failing CREATE and on success. -/
theorem windows_install_tempdir_removed_witness :
    ((WindowsTask.Install
        ⟨"svcname", "user", "1001", "C:/bin/svc.exe", "server", "C:/home", "C:/l"⟩
        "<Task>$TASK_BIN</Task>"
        ⟨.ok "C:/tmp/task-create-1", none, some "ERROR: Access is denied."⟩).2).getLast?
      = some (.removeAll "C:/tmp/task-create-1")
  ∧ ((WindowsTask.Install
        ⟨"svcname", "user", "1001", "C:/bin/svc.exe", "server", "C:/home", "C:/l"⟩
        "<Task>$TASK_BIN</Task>"
        ⟨.ok "C:/tmp/task-create-1", none, none⟩).2).getLast?
      = some (.removeAll "C:/tmp/task-create-1") := by
  constructor
  · exact (windows_install_tempdir_removed
      ⟨"svcname", "user", "1001", "C:/bin/svc.exe", "server", "C:/home", "C:/l"⟩
      "<Task>$TASK_BIN</Task>"
      ⟨.ok "C:/tmp/task-create-1", none, some "ERROR: Access is denied."⟩
      "C:/tmp/task-create-1" rfl).1
  · exact (windows_install_tempdir_removed
      ⟨"svcname", "user", "1001", "C:/bin/svc.exe", "server", "C:/home", "C:/l"⟩
      "<Task>$TASK_BIN</Task>"
      ⟨.ok "C:/tmp/task-create-1", none, none⟩
      "C:/tmp/task-create-1" rfl).1

/-- C9: on every successful supervised-tree `Install`, the zero-byte `down`
sentinel is written into the control directory, immediately before the
supervision-directory symlink — the final two effects of the trace — and no
effect of `Install` ever removes a path, so the sentinel exists on success. -/
theorem daemontools_install_down_sentinel (d : Daemontools) (runT logT : String)
    (env : DtInstallEnv) (h : (Daemontools.Install d runT logT env).1 = .ok ()) :
    (∃ l1, (Daemontools.Install d runT logT env).2 =
        l1 ++ [.writeFile ("/var/svc.d/" ++ d.Name ++ "/down") "",
               .symlink ("/var/svc.d/" ++ d.Name) d.service])
  ∧ ∀ p, DtOp.removeAll p ∉ (Daemontools.Install d runT logT env).2 := by
  obtain ⟨e1, e2, e3, e4, e5, e6, e7, e8, b9, e10, e11, e12⟩ := env
  obtain ⟨g, hg⟩ : ∃ g, goAtoi d.Gid = some g := by
    cases hgg : goAtoi d.Gid
    · simp [Daemontools.Install, hgg] at h
    · exact ⟨_, rfl⟩
  have h1 : e1 = none := by
    cases hh : e1
    · rfl
    · simp [Daemontools.Install, hg, hh] at h
  subst h1
  have h2 : e2 = none := by
    cases hh : e2
    · rfl
    · simp [Daemontools.Install, hg, hh] at h
  subst h2
  have h3 : e3 = none := by
    cases hh : e3
    · rfl
    · simp [Daemontools.Install, hg, hh] at h
  subst h3
  have h4 : e4 = none := by
    cases hh : e4
    · rfl
    · simp [Daemontools.Install, hg, hh] at h
  subst h4
  have h5 : e5 = none := by
    cases hh : e5
    · rfl
    · simp [Daemontools.Install, hg, hh] at h
  subst h5
  have h6 : e6 = none := by
    cases hh : e6
    · rfl
    · simp [Daemontools.Install, hg, hh] at h
  subst h6
  have h7 : e7 = none := by
    cases hh : e7
    · rfl
    · simp [Daemontools.Install, hg, hh] at h
  subst h7
  have h8 : e8 = none := by
    cases hh : e8
    · rfl
    · simp [Daemontools.Install, hg, hh] at h
  subst h8
  cases b9 with
  | false =>
    have h10 : e10 = none := by
      cases hh : e10
      · rfl
      · simp [Daemontools.Install, hg, hh] at h
    subst h10
    have h11 : e11 = none := by
      cases hh : e11
      · rfl
      · simp [Daemontools.Install, hg, hh] at h
    subst h11
    constructor
    · exact ⟨[.mkdirAll "/var/svc.d",
              .mkdirAll ("/var/svc.d/" ++ d.Name ++ "/log"),
              .chown ("/var/svc.d/" ++ d.Name) g,
              .writeFile ("/var/svc.d/" ++ d.Name ++ "/run") (d.templateData runT),
              .writeFile ("/var/svc.d/" ++ d.Name ++ "/log/run") (d.templateData logT),
              .copyFile d.Executable d.serviceBin,
              .mkdir ("/var/log/" ++ d.Name)], by
        cases e12 <;> simp [Daemontools.Install, hg]⟩
    · intro p
      cases e12 <;> simp [Daemontools.Install, hg]
  | true =>
    have h11 : e11 = none := by
      cases hh : e11
      · rfl
      · simp [Daemontools.Install, hg, hh] at h
    subst h11
    constructor
    · exact ⟨[.mkdirAll "/var/svc.d",
              .mkdirAll ("/var/svc.d/" ++ d.Name ++ "/log"),
              .chown ("/var/svc.d/" ++ d.Name) g,
              .writeFile ("/var/svc.d/" ++ d.Name ++ "/run") (d.templateData runT),
              .writeFile ("/var/svc.d/" ++ d.Name ++ "/log/run") (d.templateData logT),
              .copyFile d.Executable d.serviceBin], by
        cases e12 <;> simp [Daemontools.Install, hg]⟩
    · intro p
      cases e12 <;> simp [Daemontools.Install, hg]

/-- Witness for C9: a successful install of a concrete definition leaves the
sentinel write directly before the symlink. -/
theorem daemontools_install_down_sentinel_witness :
    (Daemontools.Install
        ⟨"netboot", "svc", "1000", "1000", "/usr/local/bin/netbootd", "server -L-",
          "/home/svc", "", "/etc/service/netboot", "/usr/local/bin/netbootd"⟩
        "run $TASK_BIN" "log run"
        ⟨none, none, none, none, none, none, none, none, true, none, none, none⟩).1
      = .ok ()
  ∧ ((∃ l1, (Daemontools.Install
        ⟨"netboot", "svc", "1000", "1000", "/usr/local/bin/netbootd", "server -L-",
          "/home/svc", "", "/etc/service/netboot", "/usr/local/bin/netbootd"⟩
        "run $TASK_BIN" "log run"
        ⟨none, none, none, none, none, none, none, none, true, none, none, none⟩).2 =
          l1 ++ [.writeFile ("/var/svc.d/" ++ "netboot" ++ "/down") "",
                 .symlink ("/var/svc.d/" ++ "netboot") "/etc/service/netboot"])
     ∧ ∀ p, DtOp.removeAll p ∉ (Daemontools.Install
        ⟨"netboot", "svc", "1000", "1000", "/usr/local/bin/netbootd", "server -L-",
          "/home/svc", "", "/etc/service/netboot", "/usr/local/bin/netbootd"⟩
        "run $TASK_BIN" "log run"
        ⟨none, none, none, none, none, none, none, none, true, none, none, none⟩).2) := by
  constructor
  · rfl
  · exact daemontools_install_down_sentinel
      ⟨"netboot", "svc", "1000", "1000", "/usr/local/bin/netbootd", "server -L-",
        "/home/svc", "", "/etc/service/netboot", "/usr/local/bin/netbootd"⟩
      "run $TASK_BIN" "log run"
      ⟨none, none, none, none, none, none, none, none, true, none, none, none⟩ rfl

/-- C5 counterexample: `WindowsTask.Delete` is not a best-effort stop — when
the `END` invocation fails (as with the scheduler's "task is not running"
error on an already-stopped task), the stop failure is returned to the
caller and the `DELETE` that removes the registration is never issued. -/
theorem windows_delete_propagates_stop_failure :
    (WindowsTask.Delete
        ⟨⟨1, "", "ERROR: The specified task is not running.", some "exit status 1"⟩,
         ⟨0, "SUCCESS: the scheduled task was deleted.", "", none⟩⟩).1 =
      .error "ERROR: The specified task is not running."
  ∧ WinOp.deleteTask ∉
      (WindowsTask.Delete
        ⟨⟨1, "", "ERROR: The specified task is not running.", some "exit status 1"⟩,
         ⟨0, "SUCCESS: the scheduled task was deleted.", "", none⟩⟩).2 := by
  constructor
  · rfl
  · decide

/-- C5 (amended): only the supervised-tree backend stops conditionally on
the probed run state and so tolerates the already-stopped state; the
Windows and rc-script backends issue their stop unconditionally and
propagate a stop failure, aborting before artifact removal, so their
`Delete` succeeds on an already-stopped service exactly when the stop
command itself succeeds there. -/
theorem delete_stop_tolerance (d : Daemontools) (denv : DtDeleteEnv)
    (wenv : WinDeleteEnv) (renv : RcDeleteEnv) :
    (Daemontools.svstat d.service denv.mainOut = .ok false →
     Daemontools.svstat (d.service ++ "/log") denv.logOut = .ok false →
     denv.removeServiceErr = none → denv.removeSvcdErr = none →
      (Daemontools.Delete d denv).1 = .ok ()
      ∧ DtOp.svcDown d.service ∉ (Daemontools.Delete d denv).2)
  ∧ (∀ e, (WindowsTask.taskScheduler wenv.endRun).err = some e →
      (WindowsTask.Delete wenv).1 = .error e
      ∧ WinOp.deleteTask ∉ (WindowsTask.Delete wenv).2)
  ∧ ((WindowsTask.taskScheduler wenv.endRun).err = none →
     (WindowsTask.taskScheduler wenv.deleteRun).err = none →
      (WindowsTask.Delete wenv).1 = .ok ())
  ∧ (∀ e, renv.stopErr = some e → RCDaemon.Delete renv = .error e)
  ∧ (renv.stopErr = none → renv.disableErr = none → renv.removeErr = none →
      RCDaemon.Delete renv = .ok ()) := by
  refine ⟨?_, ?_, ?_, ?_, ?_⟩
  · intro h1 h2 h3 h4
    constructor
    · simp [Daemontools.Delete, h1, h2, h3, h4]
    · simp [Daemontools.Delete, h1, h2, h3, h4]
  · intro e h
    constructor
    · simp [WindowsTask.Delete, h]
    · simp [WindowsTask.Delete, h]
  · intro h1 h2
    simp [WindowsTask.Delete, h1, h2]
  · intro e h
    simp [RCDaemon.Delete, h]
  · intro h1 h2 h3
    simp [RCDaemon.Delete, h1, h2, h3]

/-- Witness for the amended C5: a concrete already-stopped supervised-tree
service is deleted without any stop signal, and concrete stop failures on
the other two backends abort their deletes. -/
theorem delete_stop_tolerance_witness :
    Daemontools.svstat "/etc/service/netboot" (.ok "/etc/service/netboot: down 10 seconds") = .ok false
  ∧ (Daemontools.Delete
      ⟨"netboot", "svc", "1000", "1000", "/usr/local/bin/netbootd", "server -L-",
        "/home/svc", "", "/etc/service/netboot", "/usr/local/bin/netbootd"⟩
      ⟨.ok "/etc/service/netboot: down 10 seconds", none,
        .ok "/etc/service/netboot/log: down 10 seconds", none, none, none⟩).1 = .ok ()
  ∧ DtOp.svcDown "/etc/service/netboot" ∉
      (Daemontools.Delete
        ⟨"netboot", "svc", "1000", "1000", "/usr/local/bin/netbootd", "server -L-",
          "/home/svc", "", "/etc/service/netboot", "/usr/local/bin/netbootd"⟩
        ⟨.ok "/etc/service/netboot: down 10 seconds", none,
          .ok "/etc/service/netboot/log: down 10 seconds", none, none, none⟩).2
  ∧ RCDaemon.Delete ⟨some "rcctl: netboot(failed)", none, none⟩ =
      .error "rcctl: netboot(failed)" := by
  refine ⟨rfl, ?_, ?_, ?_⟩
  · exact ((delete_stop_tolerance
      ⟨"netboot", "svc", "1000", "1000", "/usr/local/bin/netbootd", "server -L-",
        "/home/svc", "", "/etc/service/netboot", "/usr/local/bin/netbootd"⟩
      ⟨.ok "/etc/service/netboot: down 10 seconds", none,
        .ok "/etc/service/netboot/log: down 10 seconds", none, none, none⟩
      ⟨⟨0, "", "", none⟩, ⟨0, "", "", none⟩⟩ ⟨none, none, none⟩).1 rfl rfl rfl rfl).1
  · exact ((delete_stop_tolerance
      ⟨"netboot", "svc", "1000", "1000", "/usr/local/bin/netbootd", "server -L-",
        "/home/svc", "", "/etc/service/netboot", "/usr/local/bin/netbootd"⟩
      ⟨.ok "/etc/service/netboot: down 10 seconds", none,
        .ok "/etc/service/netboot/log: down 10 seconds", none, none, none⟩
      ⟨⟨0, "", "", none⟩, ⟨0, "", "", none⟩⟩ ⟨none, none, none⟩).1 rfl rfl rfl rfl).2
  · exact (delete_stop_tolerance
      ⟨"netboot", "svc", "1000", "1000", "/usr/local/bin/netbootd", "server -L-",
        "/home/svc", "", "/etc/service/netboot", "/usr/local/bin/netbootd"⟩
      ⟨.ok "/etc/service/netboot: down 10 seconds", none,
        .ok "/etc/service/netboot/log: down 10 seconds", none, none, none⟩
      ⟨⟨0, "", "", none⟩, ⟨0, "", "", none⟩⟩
      ⟨some "rcctl: netboot(failed)", none, none⟩).2.2.2.1
      "rcctl: netboot(failed)" rfl

theorem scanBraceName_spec (key : List Char) : ∀ (acc post : List Char),
    (∀ c ∈ key, c ≠ '}') → (acc = [] → key ≠ []) →
    scanBraceName acc (key ++ '}' :: post) =
      (acc.reverse ++ key, acc.length + key.length + 2) := by
  induction key with
  | nil =>
    intro acc post _ hne
    have hacc : acc ≠ [] := fun h => hne h rfl
    simp [scanBraceName, hacc]
  | cons k ks ih =>
    intro acc post hk hne
    have hkne : k ≠ '}' := hk k (by simp)
    simp only [List.cons_append, scanBraceName, hkne, if_false, List.append_eq]
    rw [ih (k :: acc) post (fun c hc => hk c (by simp [hc])) (by simp)]
    simp [Prod.mk.injEq, List.append_assoc]
    omega

theorem expandChars_braced (f : String → String) (key post : List Char)
    (h1 : key ≠ []) (h2 : ∀ c ∈ key, c ≠ '}') :
    expandChars f ('$' :: '{' :: (key ++ '}' :: post)) =
      (f ⟨key⟩).data ++ expandChars f post := by
  have hscan : getShellName ('{' :: (key ++ '}' :: post)) = (key, key.length + 2) := by
    have hs := scanBraceName_spec key [] post h2 (fun _ => h1)
    simpa [getShellName] using hs
  have hdrop : ('{' :: (key ++ '}' :: post)).drop (key.length + 2) = post := by
    have hsplit : ('{' :: (key ++ '}' :: post)) = (('{' :: key) ++ ['}']) ++ post := by
      simp
    have hlen : (('{' :: key) ++ ['}']).length = key.length + 2 := by
      simp
    rw [hsplit, ← hlen, drop_len_append]
  simp [expandChars, hscan, hdrop, h1]

theorem expandChars_passthrough (f : String → String) (pre mid : List Char) :
    (∀ c ∈ pre, c ≠ '$') → expandChars f (pre ++ mid) = pre ++ expandChars f mid := by
  induction pre with
  | nil => simp
  | cons c cs ih =>
    intro h
    have hc : c ≠ '$' := h c (by simp)
    simp only [List.cons_append, expandChars, hc, if_false]
    rw [ih (fun x hx => h x (by simp [hx]))]

theorem osExpand_braced (f : String → String) (pre key post : String)
    (hpre : ∀ c ∈ pre.data, c ≠ '$') (hkey : key ≠ "")
    (hbr : ∀ c ∈ key.data, c ≠ '}') :
    osExpand (pre ++ "$\x7b" ++ key ++ "\x7d" ++ post) f =
      pre ++ f key ++ osExpand post f := by
  have hdata : (pre ++ "$\x7b" ++ key ++ "\x7d" ++ post).data =
      pre.data ++ ('$' :: '{' :: (key.data ++ '}' :: post.data)) := by
    have hb1 : ("$\x7b" : String).data = ['$', '{'] := rfl
    have hb2 : ("\x7d" : String).data = ['}'] := rfl
    simp [String.data_append, hb1, hb2]
  apply stringEq_of_dataEq
  show expandChars f ((pre ++ "$\x7b" ++ key ++ "\x7d" ++ post).data)
      = (pre ++ f key ++ osExpand post f).data
  rw [hdata]
  rw [expandChars_passthrough f pre.data ('$' :: '{' :: (key.data ++ '}' :: post.data)) hpre]
  rw [expandChars_braced f key.data post.data (string_data_ne_nil hkey) hbr]
  have hkmk : (⟨key.data⟩ : String) = key := rfl
  rw [hkmk]
  have hos : (osExpand post f).data = expandChars f post.data := rfl
  simp [String.data_append, hos, List.append_assoc]

/-- C4: rendering is total in all three backends — every braced placeholder
in a template is replaced by the mapping's value for its key; recognized
keys map to the configured values, and an unrecognized key maps to a
non-empty marked literal containing the key name, so it is never rendered
empty and never dropped. -/
theorem template_rendering_total
    (w : WindowsTask) (d : Daemontools) (r : RCDaemon)
    (pre key post : String)
    (hpre : ∀ c ∈ pre.data, c ≠ '$') (hkey : key ≠ "")
    (hbr : ∀ c ∈ key.data, c ≠ '}') :
    (osExpand (pre ++ "$\x7b" ++ key ++ "\x7d" ++ post) w.xmlExpand =
        pre ++ w.xmlExpand key ++ osExpand post w.xmlExpand)
  ∧ (osExpand (pre ++ "$\x7b" ++ key ++ "\x7d" ++ post) d.expandKey =
        pre ++ d.expandKey key ++ osExpand post d.expandKey)
  ∧ (osExpand (pre ++ "$\x7b" ++ key ++ "\x7d" ++ post) r.expandKey =
        pre ++ r.expandKey key ++ osExpand post r.expandKey)
  ∧ (key ∉ (["TASK_USER", "TASK_UID", "TASK_BIN", "TASK_ARGS", "TASK_DIR"] : List String) →
      w.xmlExpand key ≠ "" ∧ ∃ a b, w.xmlExpand key = a ++ key ++ b)
  ∧ (key ∉ (["TASK_NAME", "TASK_USER", "TASK_UID", "TASK_BIN", "TASK_ARGS", "TASK_DIR"] : List String) →
      d.expandKey key ≠ "" ∧ ∃ a b, d.expandKey key = a ++ key ++ b)
  ∧ (key ∉ (["TASK_USER", "TASK_UID", "TASK_BIN", "TASK_ARGS", "TASK_DIR"] : List String) →
      r.expandKey key ≠ "" ∧ ∃ a b, r.expandKey key = a ++ key ++ b)
  ∧ w.xmlExpand "TASK_USER" = w.Username ∧ w.xmlExpand "TASK_UID" = w.Uid
  ∧ w.xmlExpand "TASK_BIN" = w.Executable ∧ w.xmlExpand "TASK_ARGS" = w.Args
  ∧ w.xmlExpand "TASK_DIR" = w.Dir
  ∧ d.expandKey "TASK_NAME" = d.Name ∧ d.expandKey "TASK_USER" = d.Username
  ∧ d.expandKey "TASK_UID" = d.Uid ∧ d.expandKey "TASK_BIN" = d.serviceBin
  ∧ d.expandKey "TASK_ARGS" = d.Args ∧ d.expandKey "TASK_DIR" = d.Dir
  ∧ r.expandKey "TASK_USER" = r.Username ∧ r.expandKey "TASK_UID" = r.Uid
  ∧ r.expandKey "TASK_BIN" = r.serviceBin ∧ r.expandKey "TASK_ARGS" = r.Args
  ∧ r.expandKey "TASK_DIR" = r.Dir := by
  refine ⟨osExpand_braced _ pre key post hpre hkey hbr,
          osExpand_braced _ pre key post hpre hkey hbr,
          osExpand_braced _ pre key post hpre hkey hbr,
          ?_, ?_, ?_, ?_, ?_, ?_, ?_, ?_, ?_, ?_, ?_, ?_, ?_, ?_, ?_, ?_, ?_, ?_, ?_⟩
  · intro hm
    simp only [List.mem_cons, List.not_mem_nil, or_false, not_or] at hm
    obtain ⟨n1, n2, n3, n4, n5⟩ := hm
    have hval : w.xmlExpand key = "UNEXPANDED_XML_PARAM_" ++ key := by
      simp [WindowsTask.xmlExpand, n1, n2, n3, n4, n5]
    refine ⟨?_, "UNEXPANDED_XML_PARAM_", "", by simp [hval]⟩
    rw [hval]
    intro hemp
    have := congrArg String.data hemp
    simp [String.data_append] at this
  · intro hm
    simp only [List.mem_cons, List.not_mem_nil, or_false, not_or] at hm
    obtain ⟨n0, n1, n2, n3, n4, n5⟩ := hm
    have hval : d.expandKey key = "$\x7b" ++ key ++ "\x7d" := by
      simp [Daemontools.expandKey, n0, n1, n2, n3, n4, n5]
    refine ⟨?_, "$\x7b", "\x7d", hval⟩
    rw [hval]
    intro hemp
    have := congrArg String.data hemp
    simp [String.data_append] at this
  · intro hm
    simp only [List.mem_cons, List.not_mem_nil, or_false, not_or] at hm
    obtain ⟨n1, n2, n3, n4, n5⟩ := hm
    have hval : r.expandKey key = "$\x7b" ++ key ++ "\x7d" := by
      simp [RCDaemon.expandKey, n1, n2, n3, n4, n5]
    refine ⟨?_, "$\x7b", "\x7d", hval⟩
    rw [hval]
    intro hemp
    have := congrArg String.data hemp
    simp [String.data_append] at this
  · simp [WindowsTask.xmlExpand]
  · simp [WindowsTask.xmlExpand]
  · simp [WindowsTask.xmlExpand]
  · simp [WindowsTask.xmlExpand]
  · simp [WindowsTask.xmlExpand]
  · simp [Daemontools.expandKey]
  · simp [Daemontools.expandKey]
  · simp [Daemontools.expandKey]
  · simp [Daemontools.expandKey]
  · simp [Daemontools.expandKey]
  · simp [Daemontools.expandKey]
  · simp [RCDaemon.expandKey]
  · simp [RCDaemon.expandKey]
  · simp [RCDaemon.expandKey]
  · simp [RCDaemon.expandKey]
  · simp [RCDaemon.expandKey]

/-- Witness for C4: a concrete template around one unrecognized placeholder
`OTHER_PARAM` renders it as the marked literal, in each backend's mapping. -/
theorem template_rendering_total_witness :
    ("OTHER_PARAM" : String) ≠ ""
  ∧ osExpand ("a=" ++ "$\x7b" ++ "OTHER_PARAM" ++ "\x7d" ++ " b")
      (WindowsTask.xmlExpand ⟨"svcname", "user", "1001", "C:/bin/svc.exe", "server", "C:/home", "C:/l"⟩) =
      "a=" ++ WindowsTask.xmlExpand ⟨"svcname", "user", "1001", "C:/bin/svc.exe", "server", "C:/home", "C:/l"⟩ "OTHER_PARAM"
        ++ osExpand " b" (WindowsTask.xmlExpand ⟨"svcname", "user", "1001", "C:/bin/svc.exe", "server", "C:/home", "C:/l"⟩)
  ∧ WindowsTask.xmlExpand ⟨"svcname", "user", "1001", "C:/bin/svc.exe", "server", "C:/home", "C:/l"⟩ "OTHER_PARAM" =
      "UNEXPANDED_XML_PARAM_OTHER_PARAM"
  ∧ Daemontools.expandKey
      ⟨"netboot", "svc", "1000", "1000", "/usr/local/bin/netbootd", "server -L-",
        "/home/svc", "", "/etc/service/netboot", "/usr/local/bin/netbootd"⟩ "OTHER_PARAM" =
      "$\x7bOTHER_PARAM\x7d" := by
  refine ⟨by decide, ?_, rfl, rfl⟩
  exact (template_rendering_total
    ⟨"svcname", "user", "1001", "C:/bin/svc.exe", "server", "C:/home", "C:/l"⟩
    ⟨"netboot", "svc", "1000", "1000", "/usr/local/bin/netbootd", "server -L-",
      "/home/svc", "", "/etc/service/netboot", "/usr/local/bin/netbootd"⟩
    ⟨"netboot", "svc", "1000", "/usr/local/bin/netbootd", "server -L /var/log/netboot",
      "/home/svc", "/var/log/netboot", "/usr/local/bin/netbootd"⟩
    "a=" "OTHER_PARAM" " b" (by decide) (by decide) (by decide)).1
